import Mathlib

/-!
Verification development for the aiops-devops-agent repository.

Shallow embedding of the Python sources:
- `01-multi-agent/lambda/agent_framework.py` (BaseAgent.run, AgentCoordinator.orchestrate)
- `01-multi-agent/lambda/index.py` (final workflow state)
- `01-multi-agent/lambda/risk_agent.py` (RiskAgent.analyze and helpers)
- `01-multi-agent/lambda/remediation_agent.py` (RemediationAgent.execute, _execute_runbook)
- `phase-6-multi-agent/lambda/triage_agent.py` (severity and noise scoring)
- `05-orchestration/lambda/index_enhanced.py` (cooldown gate, confidence gate, handler pipeline)

Python floats are modelled as exact rationals (ℚ); the numeric literals involved
(multiples of 0.1) and the threshold comparisons in the claims are not sensitive
to binary floating-point rounding at the inputs considered.  Python ints are ℤ.
Environment-dependent results (AWS API calls, wall-clock time, Bedrock output)
are passed in as explicit parameters.
-/

/-- Result of a Python call that may raise: either a value or an exception
carrying its message. -/
inductive PyResult (α : Type) where
  | ok (val : α)
  | exn (msg : String)
deriving DecidableEq

/-! ### BaseAgent.run (agent_framework.py lines 100-151)

An agent is its `agent_type` string together with the two abstract phases
`analyze` and `execute`, each of which may raise. -/

structure AgentImpl (Ctx α β : Type) where
  agent_type : String
  analyze : Ctx → PyResult α
  execute : Ctx → α → PyResult β

/-- The combined result dict built by `BaseAgent.run`. -/
structure RunResult (α β : Type) where
  agent_type : String
  status : String
  analysis : Option α
  execution : Option β
  error : Option String
  duration_seconds : ℚ
deriving DecidableEq

/-- Model of `BaseAgent.run` (agent_framework.py 100-151): runs `analyze` then
`execute` inside a try/except; any exception is converted into a FAILED
result dict carrying the error message and the duration.  The wall-clock
duration is an environment input.  The return type `PyResult (RunResult α β)`
records whether `run` itself propagates an exception. -/
def agentRun {Ctx α β : Type} (ag : AgentImpl Ctx α β) (ctx : Ctx) (duration : ℚ) :
    PyResult (RunResult α β) :=
  match ag.analyze ctx with
  | .exn e => .ok ⟨ag.agent_type, "failed", none, none, some e, duration⟩
  | .ok a =>
    match ag.execute ctx a with
    | .exn e => .ok ⟨ag.agent_type, "failed", none, none, some e, duration⟩
    | .ok b => .ok ⟨ag.agent_type, "success", some a, some b, none, duration⟩

/-! ### AgentCoordinator.orchestrate (agent_framework.py 243-304)

For orchestration purposes an agent is characterized by its type string, its
priority value and its behavior: a function from the previously accumulated
results (the `previous_agent_results` dict, modelled as an association list in
insertion order) to its run result.  `BaseAgent.run` always produces a status
of "success" or "failed"; `critical_failure` is read with `.get(..., False)`,
modelled as a Bool field. -/

structure OrchResult where
  status : String
  critical_failure : Bool
deriving DecidableEq

structure OrchAgent where
  atype : String
  priorityVal : ℕ
  behavior : List (String × OrchResult) → OrchResult

/-- The `for agent in agents` loop of `orchestrate` (lines 274-295): each agent
receives the accumulated results, its result is stored under its type key, and
the loop breaks after an agent whose result has status "failed" with
`critical_failure` true. -/
def coordinatorLoop : List OrchAgent → List (String × OrchResult) →
    List (String × OrchResult)
  | [], acc => acc
  | ag :: rest, acc =>
    let r := ag.behavior acc
    let acc2 := acc ++ [(ag.atype, r)]
    if r.status = "failed" ∧ r.critical_failure = true then acc2
    else coordinatorLoop rest acc2

structure OrchOutcome where
  execution_order : List String
  agent_results : List (String × OrchResult)
  total_agents : ℕ
  successful_agents : ℕ
  failed_agents : ℕ

/-- Model of `AgentCoordinator.orchestrate` (lines 243-304): instantiate the requested
agents, stable-sort them by priority ascending, run the loop, and report the
counters computed over the stored results. -/
def orchestrate (agents : List OrchAgent) : OrchOutcome :=
  let sorted := agents.insertionSort (fun a b => a.priorityVal ≤ b.priorityVal)
  let results := coordinatorLoop sorted []
  { execution_order := results.map Prod.fst
    agent_results := results
    total_agents := agents.length
    successful_agents := (results.filter (fun p => p.2.status = "success")).length
    failed_agents := (results.filter (fun p => p.2.status = "failed")).length }

/-- Final workflow state written by the multi-agent handler (index.py 258):
COMPLETED when `successful_agents == total_agents`, FAILED otherwise. -/
def multiAgentFinalState (agents : List OrchAgent) : String :=
  let res := orchestrate agents
  if res.successful_agents = res.total_agents then "COMPLETED" else "FAILED"

/-! ### RiskAgent (risk_agent.py) -/

/-- Inputs to `RiskAgent.analyze`.  The three guardrail checks
(`_check_change_window`, `_check_policy_compliance`, `_check_slo_budget`)
depend on wall-clock time and AWS state, so their boolean results are
environment inputs; `runbook_steps` is the length of the step list of the
remediation plan read from `previous_agent_results`. -/
structure RiskInput where
  resource_type : String
  change_window_ok : Bool
  policy_compliant : Bool
  slo_budget_ok : Bool
  runbook_steps : ℕ
deriving DecidableEq

/-- Model of `RiskAgent._assess_blast_radius` (risk_agent.py 245-262). -/
def assessBlastRadius (resource_type : String) (steps : ℕ) : String :=
  if steps > 5 then "regional"
  else if resource_type = "rds" ∨ resource_type = "dynamodb" then "regional"
  else "localized"

/-- Model of `RiskAgent._calculate_risk_score` (risk_agent.py 264-294). -/
def calculateRiskScore (change_window_ok policy_compliant slo_budget_ok : Bool)
    (blast_radius : String) : ℚ :=
  let r0 : ℚ := 0
  let r1 := if change_window_ok then r0 else r0 + 3/10
  let r2 := if policy_compliant then r1 else r1 + 4/10
  let r3 := if slo_budget_ok then r2 else r2 + 2/10
  let r4 :=
    if blast_radius = "global" then r3 + 3/10
    else if blast_radius = "regional" then r3 + 2/10
    else if blast_radius = "localized" then r3 + 1/10
    else r3
  min 1 r4

structure RiskAnalysis where
  risk_score : ℚ
  change_window_ok : Bool
  policy_compliant : Bool
  slo_budget_ok : Bool
  blast_radius : String
  approval_required : Bool
  safe_to_proceed : Bool
deriving DecidableEq

/-- Resource types auto-approved for demo purposes (risk_agent.py 95). -/
def autoApproveTypes : List String := ["ec2", "rds", "kubernetes", "eks", "lambda"]

/-- Model of `RiskAgent.analyze` (risk_agent.py 38-109): compute blast radius and risk
score, derive `approval_required`, then apply the demo auto-approve override
(lines 94-98) which forces `approval_required = False` and `risk_score = 0.1`
for EC2/RDS/EKS/Kubernetes/Lambda resources; `safe_to_proceed` is computed in
the returned dict from the (possibly overridden) risk score. -/
def riskAnalyze (inp : RiskInput) : RiskAnalysis :=
  let blast := assessBlastRadius inp.resource_type inp.runbook_steps
  let score := calculateRiskScore inp.change_window_ok inp.policy_compliant
    inp.slo_budget_ok blast
  let approval : Bool :=
    decide (score > 1/2) || !inp.change_window_ok || !inp.policy_compliant
  let isAuto : Bool := decide (inp.resource_type ∈ autoApproveTypes)
  let approval2 := if isAuto then false else approval
  let score2 := if isAuto then 1/10 else score
  { risk_score := score2
    change_window_ok := inp.change_window_ok
    policy_compliant := inp.policy_compliant
    slo_budget_ok := inp.slo_budget_ok
    blast_radius := blast
    approval_required := approval2
    safe_to_proceed :=
      decide (score2 < 1/2) && inp.change_window_ok && inp.policy_compliant }

/-! ### TriageAgent severity and noise scoring (phase-6-multi-agent/lambda/triage_agent.py) -/

/-- One entry of the `similar_incidents` list built by `_check_duplicates`
(triage_agent.py 154-161); only the fields read by the scoring functions are
kept. -/
structure SimilarIncident where
  classification : String
  resolved : Bool
deriving DecidableEq

/-- Model of `TriageAgent._severity_from_classification` (triage_agent.py 216-225). -/
def severityFromClassification (c : String) : ℤ :=
  if c = "CRITICAL" then 10
  else if c = "HIGH" then 8
  else if c = "MEDIUM" then 5
  else if c = "LOW" then 3
  else if c = "INFO" then 1
  else 5

/-- ASCII lowercasing of one character; models Python `str.lower()` on the
ASCII event names involved. -/
def charLower (c : Char) : Char :=
  if 65 ≤ c.toNat ∧ c.toNat ≤ 90 then Char.ofNat (c.toNat + 32) else c

/-- Python `event_name.lower()` (ASCII model). -/
def lowerStr (s : String) : String := ⟨s.data.map charLower⟩

/-- Does the character list `s` start with `pat`? -/
def beginsWith : List Char → List Char → Bool
  | _, [] => true
  | [], _ :: _ => false
  | a :: s, b :: t => a = b && beginsWith s t

/-- Is `pat` a contiguous sublist of `s`? -/
def hasSublist : List Char → List Char → Bool
  | [], pat => pat.isEmpty
  | s@(_ :: t), pat => beginsWith s pat || hasSublist t pat

/-- Python substring test `w in s`. -/
def strContains (s w : String) : Bool := hasSublist s.data w.data

/-- Python `any(word in s for word in words)`. -/
def containsAny (s : String) (words : List String) : Bool :=
  words.any (fun w => strContains s w)

/-- Python `int()` applied to a rational: truncation toward zero. -/
def pyTrunc (q : ℚ) : ℤ := if 0 ≤ q then ⌊q⌋ else ⌈q⌉

/-- Critical resource types (triage_agent.py 200). -/
def criticalResources : List String := ["ec2", "rds", "dynamodb", "lambda"]

/-- Mean of the historical severities of the similar incidents
(triage_agent.py 206-209); only used when the list is nonempty. -/
def meanHistoricalSeverity (similar : List SimilarIncident) : ℚ :=
  ((similar.map (fun i => (severityFromClassification i.classification : ℚ))).sum)
    / (similar.length : ℚ)

/-- Base severity from the event verb (triage_agent.py 185-197). -/
def baseSeverity (event_name : String) : ℤ :=
  let ev := lowerStr event_name
  if containsAny ev ["delete", "terminate", "destroy"] then 10
  else if containsAny ev ["stop", "disable", "detach"] then 8
  else if containsAny ev ["modify", "update", "change"] then 6
  else if containsAny ev ["create", "start", "enable"] then 3
  else 5

/-- Base severity adjusted by the critical-resource bonus, capped at 10
(triage_agent.py 199-202). -/
def adjustedSeverity (event_name resource_type : String) : ℤ :=
  if resource_type ∈ criticalResources then min 10 (baseSeverity event_name + 1)
  else baseSeverity event_name

/-- Model of `TriageAgent._calculate_severity` (triage_agent.py 171-214): base severity
by event-name keyword, +1 (capped at 10) for critical resource types, blended
with the historical mean via Python `int((severity + avg) / 2)` when similar
incidents exist, finally clamped to 1..10. -/
def calculateSeverity (event_name resource_type : String)
    (similar : List SimilarIncident) : ℤ :=
  let adjusted := adjustedSeverity event_name resource_type
  let blended : ℤ :=
    if similar.isEmpty then adjusted
    else pyTrunc (((adjusted : ℚ) + meanHistoricalSeverity similar) / 2)
  max 1 (min 10 blended)

/-- Modelled from the claim wording (C5): identical to `calculateSeverity`
except that the historical blend uses rounding to the nearest integer instead
of Python `int()` truncation. -/
def claimSeverityRounded (event_name resource_type : String)
    (similar : List SimilarIncident) : ℤ :=
  let adjusted := adjustedSeverity event_name resource_type
  let blended : ℤ :=
    if similar.isEmpty then adjusted
    else round (((adjusted : ℚ) + meanHistoricalSeverity similar) / 2)
  max 1 (min 10 blended)

/-- Known-noisy event sources (triage_agent.py 273). -/
def noisySources : List String := ["cloudtrail.amazonaws.com", "config.amazonaws.com"]

/-- Resolution rate of the similar incidents (triage_agent.py 265-266). -/
def resolutionRate (similar : List SimilarIncident) : ℚ :=
  ((similar.filter (fun i => i.resolved)).length : ℚ) / (similar.length : ℚ)

/-- Model of `TriageAgent._calculate_noise_score` (triage_agent.py 244-277):
+0.3 when strictly more than 5 similar incidents, +0.2 when the similar
incidents are nonempty with resolution rate above 0.8, +0.1 for a known-noisy
event source, clamped above by 1.0. -/
def calculateNoiseScore (event_source : String)
    (similar : List SimilarIncident) : ℚ :=
  let n0 : ℚ := 0
  let n1 := if similar.length > 5 then n0 + 3/10 else n0
  let n2 :=
    if similar.isEmpty then n1
    else if resolutionRate similar > 4/5 then n1 + 2/10 else n1
  let n3 := if event_source ∈ noisySources then n2 + 1/10 else n2
  min 1 n3

/-- The `should_suppress` flag computed in `TriageAgent.analyze`
(triage_agent.py 86). -/
def shouldSuppress (event_source : String) (similar : List SimilarIncident) : Bool :=
  calculateNoiseScore event_source similar > 7/10

/-- Modelled from the claim wording (C6): identical to `calculateNoiseScore`
except that the frequency bonus applies from 5 similar incidents (at least 5)
instead of strictly more than 5. -/
def claimNoiseScoreAtLeast5 (event_source : String)
    (similar : List SimilarIncident) : ℚ :=
  let n0 : ℚ := 0
  let n1 := if similar.length ≥ 5 then n0 + 3/10 else n0
  let n2 :=
    if similar.isEmpty then n1
    else if resolutionRate similar > 4/5 then n1 + 2/10 else n1
  let n3 := if event_source ∈ noisySources then n2 + 1/10 else n2
  min 1 n3

/-! ### RemediationAgent (remediation_agent.py)

`_execute_terraform`, `_execute_ssm` and `_execute_lambda` each wrap their
whole body in try/except and return a status dict, so no exception escapes a
step executor into the `_execute_runbook` loop; the success of the underlying
AWS call (CodeBuild start_build, SSM start_automation_execution, Lambda
invoke) is an environment input per step position. -/

structure RunbookStep where
  step_number : ℤ
  action_type : String
  command : String
deriving DecidableEq

/-- Execute a single runbook step (remediation_agent.py 277-287 dispatch and
315-404 helpers).  Returns the resulting status string together with whether a
mutation executor call (CodeBuild build, SSM automation, Lambda invocation)
was attempted.  `callOk` tells whether that external call succeeds. -/
def execStep (step : RunbookStep) (callOk : Bool) : String × Bool :=
  if step.action_type = "terraform" then
    (if callOk then "success" else "failed", true)
  else if step.action_type = "ssm" then
    if step.command = "" then ("failed", false)
    else (if callOk then "success" else "failed", true)
  else if step.action_type = "lambda" then
    if step.command = "" then ("failed", false)
    else (if callOk then "success" else "failed", true)
  else ("skipped", false)

/-- The `for step in steps` loop of `_execute_runbook` (remediation_agent.py
270-306): records `(step_number, status)` for each step and counts attempted
mutation calls.  The `break` in the source sits in the `except` branch, and the
step executors catch all their exceptions internally, so every step is
processed. -/
def runbookGo : List RunbookStep → (ℕ → Bool) → ℕ → List (ℤ × String) × ℕ
  | [], _, _ => ([], 0)
  | s :: rest, env, i =>
    let r := execStep s (env i)
    let tail := runbookGo rest env (i + 1)
    ((s.step_number, r.1) :: tail.1, (if r.2 then 1 else 0) + tail.2)

structure RunbookExecResult where
  status : String
  steps_executed : ℕ
  results : List (ℤ × String)
  overall_success : Bool
  mutations : ℕ
deriving DecidableEq

/-- Model of `RemediationAgent._execute_runbook` (remediation_agent.py 261-313):
`overall_success` starts true and is cleared by any step whose status is not
"success"; the returned status is "success" or "failed" accordingly. -/
def executeRunbook (steps : List RunbookStep) (env : ℕ → Bool) :
    RunbookExecResult :=
  let run := runbookGo steps env 0
  let ok := run.1.all (fun p => p.2 = "success")
  { status := if ok then "success" else "failed"
    steps_executed := run.1.length
    results := run.1
    overall_success := ok
    mutations := run.2 }

/-- Outcome of `RemediationAgent.execute` (remediation_agent.py 94-127):
either the pending-approval early return (which persists the
`pending_approval` state and runs no runbook step), or the runbook execution
result. -/
inductive RemedOutcome where
  | pendingApproval
  | executed (r : RunbookExecResult)
deriving DecidableEq

def remediationExecute (requires_approval : Bool) (steps : List RunbookStep)
    (env : ℕ → Bool) : RemedOutcome :=
  if requires_approval then .pendingApproval
  else .executed (executeRunbook steps env)

/-- Number of mutation-executor calls attempted by a remediation outcome. -/
def RemedOutcome.mutationCalls : RemedOutcome → ℕ
  | .pendingApproval => 0
  | .executed r => r.mutations

/-! ### Cooldown gate and enhanced handler (05-orchestration/lambda/index_enhanced.py)

Incident timestamps are ISO-8601 strings whose lexicographic order is
chronological; they are modelled as integers.  The cooldown window
`timedelta(minutes=COOLDOWN_MINUTES)` is modelled as an integer length in the
same unit, so `cutoff_time = now - window`. -/

structure IncidentRecord where
  incident_id : String
  resource_key : String
  timestamp : ℤ
  workflow_state : String
deriving DecidableEq

/-- States that trigger cooldown (index_enhanced.py 155). -/
def cooldownStates : List String := ["EXECUTING", "VERIFYING", "COMPLETED"]

/-- The DynamoDB query of `check_cooldown` (index_enhanced.py 137-147):
incidents for the resource key with timestamp strictly after the cutoff, most
recent first, `Limit=1` — i.e. the single matching record with the maximal
timestamp (the first such in table order when tied). -/
def mostRecentInWindow (db : List IncidentRecord) (rk : String) (cutoff : ℤ) :
    Option IncidentRecord :=
  (db.filter (fun r => r.resource_key = rk ∧ r.timestamp > cutoff)).foldl
    (fun acc r =>
      match acc with
      | none => some r
      | some b => if r.timestamp > b.timestamp then some r else some b)
    none

/-- Model of `check_cooldown` (index_enhanced.py 129-162): returns
`(is_in_cooldown, last_incident_id)`; cooldown holds only when the most recent
in-window incident for the key is in EXECUTING, VERIFYING or COMPLETED. -/
def checkCooldown (db : List IncidentRecord) (rk : String) (now window : ℤ) :
    Bool × Option String :=
  match mostRecentInWindow db rk (now - window) with
  | some last =>
    if last.workflow_state ∈ cooldownStates then (true, some last.incident_id)
    else (false, none)
  | none => (false, none)

/-- Result of `analyze_with_bedrock_enhanced` once parsed. -/
structure EnhAnalysis where
  classification : String
  confidence : ℚ
  severity : ℤ
deriving DecidableEq

/-- Observable outcome of the enhanced handler: the returned status, the
sequence of workflow states persisted (starting with the DETECTING record
created in stage 1), the stored cooldown reason / recovery fields, whether the
manual-review notification was attempted, and whether the mutation executor
(CodeBuild via `execute_recovery_simple`) was invoked. -/
structure EnhOutcome where
  status : String
  statesVisited : List String
  cooldown_reason : Option String
  recovery_needed : Option Bool
  reason : Option String
  manualReviewNotified : Bool
  executorInvoked : Bool
deriving DecidableEq

def EnhOutcome.finalState (o : EnhOutcome) : String :=
  o.statesVisited.getLastD "DETECTING"

/-- The enhanced handler pipeline (index_enhanced.py 686-905), stages 1-8:
create the incident record in DETECTING, run the cooldown gate, run the
Bedrock analysis (an environment input that may raise), apply the
classification and confidence gates, then plan, execute recovery and persist
the final state.  `recoveryOk` tells whether the CodeBuild invocation
succeeds; `threshold` is `CONFIDENCE_THRESHOLD` (default 0.8). -/
def enhancedHandler (db : List IncidentRecord) (rk : String) (now window : ℤ)
    (analysis : PyResult EnhAnalysis) (threshold : ℚ) (recoveryOk : Bool) :
    EnhOutcome :=
  let cd := checkCooldown db rk now window
  if cd.1 then
    { status := "cooldown"
      statesVisited := ["DETECTING", "COOLDOWN"]
      cooldown_reason := some ("Recent incident: " ++ cd.2.getD "")
      recovery_needed := none
      reason := none
      manualReviewNotified := false
      executorInvoked := false }
  else
    match analysis with
    | .exn e =>
      { status := "error"
        statesVisited := ["DETECTING", "ANALYZING", "FAILED"]
        cooldown_reason := none
        recovery_needed := none
        reason := some e
        manualReviewNotified := false
        executorInvoked := false }
    | .ok a =>
      if a.classification ≠ "FAILURE" ∧ a.classification ≠ "TAMPERING" then
        { status := "no_action"
          statesVisited := ["DETECTING", "ANALYZING", "ANALYZING", "COMPLETED"]
          cooldown_reason := none
          recovery_needed := some false
          reason := none
          manualReviewNotified := false
          executorInvoked := false }
      else if a.confidence < threshold then
        { status := "manual_review_required"
          statesVisited := ["DETECTING", "ANALYZING", "ANALYZING", "COMPLETED"]
          cooldown_reason := none
          recovery_needed := some false
          reason := some "low_confidence"
          manualReviewNotified := true
          executorInvoked := false }
      else
        { status := "ok"
          statesVisited := ["DETECTING", "ANALYZING", "ANALYZING", "PLANNING",
            "PLANNING", "EXECUTING", if recoveryOk then "COMPLETED" else "FAILED"]
          cooldown_reason := none
          recovery_needed := none
          reason := none
          manualReviewNotified := false
          executorInvoked := true }

/-! ## Claim theorems -/

/-- C7: `BaseAgent.run` never propagates an exception: when `analyze` or
`execute` raises, it returns a FAILED result carrying the error message and
the duration; when neither raises it returns a SUCCESS result with both
payloads and the duration. -/
theorem c7_run_fail_soft {Ctx α β : Type} (ag : AgentImpl Ctx α β) (ctx : Ctx)
    (d : ℚ) :
    (∃ e, (ag.analyze ctx = .exn e ∨
        ∃ a, ag.analyze ctx = .ok a ∧ ag.execute ctx a = .exn e) ∧
      agentRun ag ctx d = .ok ⟨ag.agent_type, "failed", none, none, some e, d⟩) ∨
    (∃ a b, ag.analyze ctx = .ok a ∧ ag.execute ctx a = .ok b ∧
      agentRun ag ctx d = .ok ⟨ag.agent_type, "success", some a, some b, none, d⟩) := by
  cases h1 : ag.analyze ctx with
  | exn e => exact .inl ⟨e, .inl rfl, by simp [agentRun, h1]⟩
  | ok a =>
    cases h2 : ag.execute ctx a with
    | exn e => exact .inl ⟨e, .inr ⟨a, rfl, h2⟩, by simp [agentRun, h1, h2]⟩
    | ok b => exact .inr ⟨a, b, rfl, h2, by simp [agentRun, h1, h2]⟩

/-- C2 counterexample: for an EC2 resource outside the change window the
auto-approve override (risk_agent.py 94-98) returns
`approval_required = false` although the claimed formula
`risk_score > 0.5 ∨ ¬change_window_ok ∨ ¬policy_compliant` is true
(`change_window_ok = false`), so the claimed equivalence fails. -/
theorem c2_counterexample :
    ¬ (((riskAnalyze ⟨"ec2", false, true, true, 0⟩).approval_required = true) ↔
      ((riskAnalyze ⟨"ec2", false, true, true, 0⟩).risk_score > 1/2 ∨
       (riskAnalyze ⟨"ec2", false, true, true, 0⟩).change_window_ok = false ∨
       (riskAnalyze ⟨"ec2", false, true, true, 0⟩).policy_compliant = false)) := by
  simp +decide [riskAnalyze, calculateRiskScore, assessBlastRadius, autoApproveTypes]

/-- Risk score in closed sum form. -/
theorem calculateRiskScore_eq_sum (cw pc slo : Bool) (blast : String) :
    calculateRiskScore cw pc slo blast =
      min 1 ((if cw then 0 else 3/10) + (if pc then 0 else 4/10) +
        (if slo then 0 else 2/10) +
        (if blast = "global" then 3/10
         else if blast = "regional" then 2/10
         else if blast = "localized" then 1/10 else 0)) := by
  unfold calculateRiskScore
  split_ifs <;> norm_num

/-- C2 amended: for resource types outside the demo auto-approve list
(ec2, rds, kubernetes, eks, lambda) the claimed relations hold: the risk
score is the clamped sum of the contributions, `approval_required` is
`risk_score > 0.5 ∨ ¬change_window_ok ∨ ¬policy_compliant`, and
`safe_to_proceed` is `risk_score < 0.5 ∧ change_window_ok ∧
policy_compliant`.  For auto-approved types the code instead forces
`approval_required = false` and `risk_score = 0.1`. -/
theorem c2_amended (inp : RiskInput) (h : inp.resource_type ∉ autoApproveTypes) :
    (riskAnalyze inp).risk_score =
      min 1 ((if inp.change_window_ok then 0 else 3/10) +
        (if inp.policy_compliant then 0 else 4/10) +
        (if inp.slo_budget_ok then 0 else 2/10) +
        (if (riskAnalyze inp).blast_radius = "global" then 3/10
         else if (riskAnalyze inp).blast_radius = "regional" then 2/10
         else if (riskAnalyze inp).blast_radius = "localized" then 1/10 else 0)) ∧
    ((riskAnalyze inp).approval_required = true ↔
      ((riskAnalyze inp).risk_score > 1/2 ∨ inp.change_window_ok = false ∨
       inp.policy_compliant = false)) ∧
    ((riskAnalyze inp).safe_to_proceed = true ↔
      ((riskAnalyze inp).risk_score < 1/2 ∧ inp.change_window_ok = true ∧
       inp.policy_compliant = true)) := by
  simp only [riskAnalyze, decide_eq_false h, if_false, Bool.false_eq_true]
  refine ⟨calculateRiskScore_eq_sum _ _ _ _, ?_, ?_⟩
  · cases hcw : inp.change_window_ok <;> cases hpc : inp.policy_compliant <;>
      simp [hcw, hpc, decide_eq_true_eq]
  · cases hcw : inp.change_window_ok <;> cases hpc : inp.policy_compliant <;>
      simp [hcw, hpc, decide_eq_true_eq]

/-- C2 witness: a non-auto-approved resource (S3) outside the change window
gets `approval_required = true` as the amended claim requires. -/
theorem c2_witness :
    ("s3" : String) ∉ autoApproveTypes ∧
    ((riskAnalyze ⟨"s3", false, true, true, 0⟩).approval_required = true ↔
      ((riskAnalyze ⟨"s3", false, true, true, 0⟩).risk_score > 1/2 ∨
       (false : Bool) = false ∨ (true : Bool) = false)) :=
  ⟨by decide, (c2_amended ⟨"s3", false, true, true, 0⟩ (by decide)).2.1⟩

/-- Severity values from classification strings are at least 1. -/
theorem severityFromClassification_ge_one (c : String) :
    1 ≤ severityFromClassification c := by
  unfold severityFromClassification
  split_ifs <;> norm_num

/-- The historical mean severity is nonnegative. -/
theorem meanHistoricalSeverity_nonneg (sim : List SimilarIncident) :
    0 ≤ meanHistoricalSeverity sim := by
  unfold meanHistoricalSeverity
  apply div_nonneg _ (by positivity)
  apply List.sum_nonneg
  intro q hq
  obtain ⟨i, _, rfl⟩ := List.mem_map.mp hq
  have h := severityFromClassification_ge_one i.classification
  exact_mod_cast le_trans (by norm_num : (0:ℤ) ≤ 1) h

/-- The adjusted severity is nonnegative. -/
theorem adjustedSeverity_nonneg (e r : String) : 0 ≤ adjustedSeverity e r := by
  have hb : 3 ≤ baseSeverity e := by
    simp only [baseSeverity]
    split_ifs <;> norm_num
  unfold adjustedSeverity
  split_ifs
  · exact le_min (by norm_num) (by linarith)
  · linarith

/-- C5 counterexample: a Modify event on a non-critical resource with one
MEDIUM historical incident gives `int((6 + 5) / 2) = 5` in the code, while
the claimed `round((6 + 5) / 2) = 6`. -/
theorem c5_counterexample :
    calculateSeverity "ModifyVolume" "s3" [⟨"MEDIUM", false⟩] = 5 ∧
    claimSeverityRounded "ModifyVolume" "s3" [⟨"MEDIUM", false⟩] = 6 := by
  constructor
  · simp +decide [calculateSeverity, adjustedSeverity, baseSeverity, containsAny,
      meanHistoricalSeverity, severityFromClassification, criticalResources, pyTrunc]
    norm_num
  · simp +decide [claimSeverityRounded, adjustedSeverity, baseSeverity, containsAny,
      meanHistoricalSeverity, severityFromClassification, criticalResources]
    norm_num [round_eq]

/-- C5 amended: the severity is the claimed base-plus-bonus value, blended
with the historical mean by truncation (`int()`, i.e. the floor of the
nonnegative average) rather than rounding, and clamped to 1..10. -/
theorem c5_amended (e r : String) (sim : List SimilarIncident) :
    calculateSeverity e r sim =
      max 1 (min 10 (if sim.isEmpty then adjustedSeverity e r
        else ⌊((adjustedSeverity e r : ℚ) + meanHistoricalSeverity sim) / 2⌋)) ∧
    1 ≤ calculateSeverity e r sim ∧ calculateSeverity e r sim ≤ 10 := by
  have htr : pyTrunc (((adjustedSeverity e r : ℚ) + meanHistoricalSeverity sim) / 2)
      = ⌊((adjustedSeverity e r : ℚ) + meanHistoricalSeverity sim) / 2⌋ := by
    have h1 := adjustedSeverity_nonneg e r
    have h2 := meanHistoricalSeverity_nonneg sim
    have : (0:ℚ) ≤ ((adjustedSeverity e r : ℚ) + meanHistoricalSeverity sim) / 2 := by
      have : (0:ℚ) ≤ (adjustedSeverity e r : ℚ) := by exact_mod_cast h1
      linarith
    simp [pyTrunc, this]
  refine ⟨?_, ?_, ?_⟩
  · unfold calculateSeverity
    split_ifs with h <;> simp [h, htr]
  · unfold calculateSeverity
    exact le_max_left _ _
  · unfold calculateSeverity
    exact max_le (by norm_num) (min_le_left _ _)

/-- C6 counterexample: with exactly five similar incidents (none resolved,
source not on the noisy list) the code produces noise score 0 because its
frequency test is strictly `> 5`, while the claimed "at least 5" formula
gives 0.3. -/
theorem c6_counterexample :
    calculateNoiseScore "aws.ec2"
      [⟨"HIGH", false⟩, ⟨"HIGH", false⟩, ⟨"HIGH", false⟩, ⟨"HIGH", false⟩,
       ⟨"HIGH", false⟩] = 0 ∧
    claimNoiseScoreAtLeast5 "aws.ec2"
      [⟨"HIGH", false⟩, ⟨"HIGH", false⟩, ⟨"HIGH", false⟩, ⟨"HIGH", false⟩,
       ⟨"HIGH", false⟩] = 3/10 := by
  constructor
  · simp +decide [calculateNoiseScore, resolutionRate, noisySources]
    norm_num
  · simp +decide [claimNoiseScoreAtLeast5, resolutionRate, noisySources]
    norm_num

/-- C6 amended: the noise score is the clamped sum of +0.3 for strictly more
than 5 similar incidents (not "at least 5"), +0.2 for a resolution rate above
0.8, and +0.1 for a known-noisy source; it lies in [0,1] and
`should_suppress` holds exactly when it exceeds 0.7. -/
theorem c6_amended (es : String) (sim : List SimilarIncident) :
    calculateNoiseScore es sim =
      min 1 ((if sim.length > 5 then 3/10 else 0) +
        (if sim ≠ [] ∧ resolutionRate sim > 4/5 then 2/10 else 0) +
        (if es ∈ noisySources then 1/10 else 0)) ∧
    0 ≤ calculateNoiseScore es sim ∧ calculateNoiseScore es sim ≤ 1 ∧
    (shouldSuppress es sim = true ↔ calculateNoiseScore es sim > 7/10) := by
  have hsum : calculateNoiseScore es sim =
      min 1 ((if sim.length > 5 then 3/10 else 0) +
        (if sim ≠ [] ∧ resolutionRate sim > 4/5 then 2/10 else 0) +
        (if es ∈ noisySources then 1/10 else 0)) := by
    by_cases h2 : sim = []
    · subst h2
      by_cases h4 : es ∈ noisySources <;>
        simp [calculateNoiseScore, h4]
    · have hne : sim.isEmpty = false := by
        simp [List.isEmpty_iff, h2]
      by_cases h1 : sim.length > 5 <;> by_cases h3 : resolutionRate sim > 4/5 <;>
        by_cases h4 : es ∈ noisySources <;>
          simp [calculateNoiseScore, hne, h1, h2, h3, h4]
  refine ⟨hsum, ?_, ?_, ?_⟩
  · rw [hsum]
    refine le_min (by norm_num) ?_
    split_ifs <;> norm_num
  · rw [hsum]
    exact min_le_left _ _
  · simp [shouldSuppress]

/-- The recorded results of the runbook loop are positionally the step
numbers. -/
theorem runbookGo_keys (env : ℕ → Bool) :
    ∀ (steps : List RunbookStep) (i : ℕ),
      (runbookGo steps env i).1.map Prod.fst = steps.map RunbookStep.step_number := by
  intro steps
  induction steps with
  | nil => intro i; simp [runbookGo]
  | cons s rest ih => intro i; simp [runbookGo, ih (i + 1)]

/-- The runbook loop records one result per step. -/
theorem runbookGo_length (env : ℕ → Bool) :
    ∀ (steps : List RunbookStep) (i : ℕ),
      (runbookGo steps env i).1.length = steps.length := by
  intro steps
  induction steps with
  | nil => intro i; simp [runbookGo]
  | cons s rest ih => intro i; simp [runbookGo, ih (i + 1)]

/-- C3 counterexample: a runbook whose first step deterministically fails (an
`ssm` step with no document name) followed by a `terraform` step: the failed
first step does not stop the loop, the second step still executes and starts
a CodeBuild mutation. -/
theorem c3_counterexample :
    (executeRunbook [⟨1, "ssm", ""⟩, ⟨2, "terraform", "t"⟩] (fun _ => true)).results
        = [(1, "failed"), (2, "success")] ∧
    (executeRunbook [⟨1, "ssm", ""⟩, ⟨2, "terraform", "t"⟩] (fun _ => true)).steps_executed
        = 2 ∧
    (executeRunbook [⟨1, "ssm", ""⟩, ⟨2, "terraform", "t"⟩] (fun _ => true)).overall_success
        = false ∧
    (executeRunbook [⟨1, "ssm", ""⟩, ⟨2, "terraform", "t"⟩] (fun _ => true)).mutations
        = 1 := by
  decide

/-- C3 amended: with `requires_approval` the agent persists the
pending-approval state and attempts no mutation call; without it the runbook
executes every step in order (a step returning a failure result marks the
overall execution failed but does not stop later steps, since the step
executors catch their own exceptions and only a raised exception would break
the loop). -/
theorem c3_amended (ra : Bool) (steps : List RunbookStep) (env : ℕ → Bool) :
    (ra = true → remediationExecute ra steps env = .pendingApproval ∧
      (remediationExecute ra steps env).mutationCalls = 0) ∧
    (ra = false → ∃ r, remediationExecute ra steps env = .executed r ∧
      r.steps_executed = steps.length ∧
      r.results.map Prod.fst = steps.map RunbookStep.step_number ∧
      (r.status = "success" ↔ r.overall_success = true) ∧
      (r.overall_success = true ↔ ∀ p ∈ r.results, p.2 = "success")) := by
  constructor
  · intro h
    subst h
    simp [remediationExecute, RemedOutcome.mutationCalls]
  · intro h
    subst h
    refine ⟨executeRunbook steps env, by simp [remediationExecute], ?_, ?_, ?_, ?_⟩
    · simp [executeRunbook, runbookGo_length]
    · simp [executeRunbook, runbookGo_keys]
    · simp only [executeRunbook]
      split_ifs with h <;> simp [h]
    · simp [executeRunbook, List.all_eq_true]

/-- C3 witness: both branches at concrete inputs. -/
theorem c3_witness :
    (remediationExecute true [⟨1, "terraform", "t"⟩] (fun _ => true) = .pendingApproval) ∧
    (∃ r, remediationExecute false [⟨1, "terraform", "t"⟩] (fun _ => true) = .executed r ∧
      r.steps_executed = 1 ∧
      r.results.map Prod.fst = [⟨1, "terraform", "t"⟩].map RunbookStep.step_number ∧
      (r.status = "success" ↔ r.overall_success = true) ∧
      (r.overall_success = true ↔ ∀ p ∈ r.results, p.2 = "success")) :=
  ⟨((c3_amended true [⟨1, "terraform", "t"⟩] (fun _ => true)).1 rfl).1,
   (c3_amended false [⟨1, "terraform", "t"⟩] (fun _ => true)).2 rfl⟩

/-- A non-terraform/ssm/lambda step is recorded as skipped wherever it occurs
in the runbook. -/
theorem runbookGo_skipped_mem (env : ℕ → Bool) (s : RunbookStep)
    (ht : s.action_type ≠ "terraform") (hs : s.action_type ≠ "ssm")
    (hl : s.action_type ≠ "lambda") :
    ∀ (steps : List RunbookStep) (i : ℕ), s ∈ steps →
      (s.step_number, "skipped") ∈ (runbookGo steps env i).1 := by
  intro steps
  induction steps with
  | nil => intro i h; simp at h
  | cons a rest ih =>
    intro i h
    rcases List.mem_cons.mp h with h | h
    · subst h
      simp [runbookGo, execStep, ht, hs, hl]
    · simp only [runbookGo]
      exact List.mem_cons_of_mem _ (ih (i + 1) h)

/-- C10: a runbook containing a step whose action type is none of terraform,
ssm, lambda records that step as "skipped" and the execution result is
"failed" with `overall_success = false`. -/
theorem c10_manual_step_fails (steps : List RunbookStep) (env : ℕ → Bool)
    (s : RunbookStep) (hmem : s ∈ steps) (ht : s.action_type ≠ "terraform")
    (hs : s.action_type ≠ "ssm") (hl : s.action_type ≠ "lambda") :
    remediationExecute false steps env = .executed (executeRunbook steps env) ∧
    (s.step_number, "skipped") ∈ (executeRunbook steps env).results ∧
    (executeRunbook steps env).status = "failed" ∧
    (executeRunbook steps env).overall_success = false := by
  have hmem2 : (s.step_number, "skipped") ∈ (runbookGo steps env 0).1 :=
    runbookGo_skipped_mem env s ht hs hl steps 0 hmem
  have hall : (runbookGo steps env 0).1.all (fun p => p.2 = "success") = false := by
    rw [List.all_eq_false]
    exact ⟨_, hmem2, by simp⟩
  refine ⟨by simp [remediationExecute], ?_, ?_, ?_⟩
  · simpa [executeRunbook] using hmem2
  · simp [executeRunbook, hall]
  · simp [executeRunbook, hall]

/-- C10 witness: a single manual step. -/
theorem c10_witness :
    remediationExecute false [⟨1, "manual", "do it by hand"⟩] (fun _ => true)
        = .executed (executeRunbook [⟨1, "manual", "do it by hand"⟩] (fun _ => true)) ∧
    ((1 : ℤ), "skipped") ∈
        (executeRunbook [⟨1, "manual", "do it by hand"⟩] (fun _ => true)).results ∧
    (executeRunbook [⟨1, "manual", "do it by hand"⟩] (fun _ => true)).status = "failed" ∧
    (executeRunbook [⟨1, "manual", "do it by hand"⟩] (fun _ => true)).overall_success
        = false :=
  c10_manual_step_fails [⟨1, "manual", "do it by hand"⟩] (fun _ => true)
    ⟨1, "manual", "do it by hand"⟩ (by decide) (by decide) (by decide) (by decide)

/-- Concrete incident table for the C1 counterexample: an older COMPLETED
incident and a more recent FAILED incident for the same resource key, both
within the cooldown window. -/
def c1db : List IncidentRecord :=
  [⟨"i1", "ec2#a", 10, "COMPLETED"⟩, ⟨"i2", "ec2#a", 20, "FAILED"⟩]

/-- C1 counterexample: although a prior incident (`i1`, COMPLETED) for the
resource key lies within the cooldown window, the gate inspects only the
single most recent in-window incident (`i2`, FAILED; `Limit=1`,
`ScanIndexForward=False`), so the new incident is not suppressed: the handler
proceeds, invokes the mutation executor and never persists COOLDOWN. -/
theorem c1_counterexample :
    (∃ r ∈ c1db, r.resource_key = "ec2#a" ∧ r.timestamp > 21 - 15 ∧
      r.workflow_state ∈ cooldownStates) ∧
    (enhancedHandler c1db "ec2#a" 21 15 (.ok ⟨"FAILURE", 9/10, 8⟩) (4/5) true).status
        ≠ "cooldown" ∧
    (enhancedHandler c1db "ec2#a" 21 15 (.ok ⟨"FAILURE", 9/10, 8⟩) (4/5) true).executorInvoked
        = true ∧
    (enhancedHandler c1db "ec2#a" 21 15 (.ok ⟨"FAILURE", 9/10, 8⟩) (4/5) true).finalState
        ≠ "COOLDOWN" := by
  refine ⟨by decide, ?_⟩
  have h : enhancedHandler c1db "ec2#a" 21 15 (.ok ⟨"FAILURE", 9/10, 8⟩) (4/5) true
      = { status := "ok"
          statesVisited := ["DETECTING", "ANALYZING", "ANALYZING", "PLANNING",
            "PLANNING", "EXECUTING", "COMPLETED"]
          cooldown_reason := none
          recovery_needed := none
          reason := none
          manualReviewNotified := false
          executorInvoked := true } := by
    simp +decide [enhancedHandler, checkCooldown, mostRecentInWindow, c1db, cooldownStates]
    norm_num
  rw [h]
  refine ⟨by decide, rfl, by decide⟩

/-- C1 amended: the gate suppresses exactly when the single most recent
in-window incident for the resource key is in EXECUTING, VERIFYING or
COMPLETED; in that case the new incident is persisted as COOLDOWN with
`cooldown_reason = "Recent incident: <id>"`, no agent state is entered and no
mutation executor is invoked. -/
theorem c1_amended (db : List IncidentRecord) (rk : String) (now window : ℤ)
    (analysis : PyResult EnhAnalysis) (threshold : ℚ) (recoveryOk : Bool)
    (r : IncidentRecord) (hmr : mostRecentInWindow db rk (now - window) = some r)
    (hst : r.workflow_state ∈ cooldownStates) :
    enhancedHandler db rk now window analysis threshold recoveryOk =
      { status := "cooldown"
        statesVisited := ["DETECTING", "COOLDOWN"]
        cooldown_reason := some ("Recent incident: " ++ r.incident_id)
        recovery_needed := none
        reason := none
        manualReviewNotified := false
        executorInvoked := false } := by
  simp [enhancedHandler, checkCooldown, hmr, hst]

/-- C1 witness: a lone COMPLETED incident inside the window suppresses the
new one. -/
theorem c1_witness :
    enhancedHandler [⟨"i1", "k", 10, "COMPLETED"⟩] "k" 12 5
        (.ok ⟨"FAILURE", 9/10, 8⟩) (4/5) true =
      { status := "cooldown"
        statesVisited := ["DETECTING", "COOLDOWN"]
        cooldown_reason := some ("Recent incident: " ++ "i1")
        recovery_needed := none
        reason := none
        manualReviewNotified := false
        executorInvoked := false } :=
  c1_amended [⟨"i1", "k", 10, "COMPLETED"⟩] "k" 12 5 (.ok ⟨"FAILURE", 9/10, 8⟩)
    (4/5) true ⟨"i1", "k", 10, "COMPLETED"⟩ (by decide) (by decide)

/-- C9: for FAILURE or TAMPERING classifications that pass the cooldown gate,
confidence strictly below the 0.8 threshold terminates the workflow as
COMPLETED with `recovery_needed = false` and `reason = "low_confidence"`,
sends the manual-review notification and never enters PLANNING or EXECUTING;
confidence exactly 0.8 passes the strict `<` gate and the workflow proceeds
to PLANNING and the executor. -/
theorem c9_confidence_gate (db : List IncidentRecord) (rk : String)
    (now window : ℤ) (a : EnhAnalysis) (recoveryOk : Bool)
    (hcd : (checkCooldown db rk now window).1 = false)
    (hcls : a.classification = "FAILURE" ∨ a.classification = "TAMPERING") :
    (a.confidence < 4/5 →
      enhancedHandler db rk now window (.ok a) (4/5) recoveryOk =
        { status := "manual_review_required"
          statesVisited := ["DETECTING", "ANALYZING", "ANALYZING", "COMPLETED"]
          cooldown_reason := none
          recovery_needed := some false
          reason := some "low_confidence"
          manualReviewNotified := true
          executorInvoked := false } ∧
      (enhancedHandler db rk now window (.ok a) (4/5) recoveryOk).finalState
          = "COMPLETED") ∧
    (a.confidence = 4/5 →
      "PLANNING" ∈ (enhancedHandler db rk now window (.ok a) (4/5) recoveryOk).statesVisited ∧
      (enhancedHandler db rk now window (.ok a) (4/5) recoveryOk).executorInvoked = true) := by
  have hnc : ¬ (a.classification ≠ "FAILURE" ∧ a.classification ≠ "TAMPERING") := by
    rcases hcls with h | h <;> simp [h]
  constructor
  · intro hconf
    have h : enhancedHandler db rk now window (.ok a) (4/5) recoveryOk =
        { status := "manual_review_required"
          statesVisited := ["DETECTING", "ANALYZING", "ANALYZING", "COMPLETED"]
          cooldown_reason := none
          recovery_needed := some false
          reason := some "low_confidence"
          manualReviewNotified := true
          executorInvoked := false } := by
      simp [enhancedHandler, hcd, hnc, hconf]
    exact ⟨h, by rw [h]; decide⟩
  · intro hconf
    have hnlt : ¬ (a.confidence < 4/5) := by rw [hconf]; norm_num
    have h : enhancedHandler db rk now window (.ok a) (4/5) recoveryOk =
        { status := "ok"
          statesVisited := ["DETECTING", "ANALYZING", "ANALYZING", "PLANNING",
            "PLANNING", "EXECUTING", if recoveryOk then "COMPLETED" else "FAILED"]
          cooldown_reason := none
          recovery_needed := none
          reason := none
          manualReviewNotified := false
          executorInvoked := true } := by
      simp [enhancedHandler, hcd, hnc, hnlt]
    rw [h]
    exact ⟨by simp, rfl⟩

/-- C9 witness: cooldown-free table, FAILURE classification, at confidence
0.5 the workflow requires manual review; at exactly 0.8 it reaches PLANNING. -/
theorem c9_witness :
    ((1 : ℚ)/2 < 4/5 ∧
      enhancedHandler [] "k" 0 5 (.ok ⟨"FAILURE", 1/2, 8⟩) (4/5) true =
        { status := "manual_review_required"
          statesVisited := ["DETECTING", "ANALYZING", "ANALYZING", "COMPLETED"]
          cooldown_reason := none
          recovery_needed := some false
          reason := some "low_confidence"
          manualReviewNotified := true
          executorInvoked := false }) ∧
    "PLANNING" ∈ (enhancedHandler [] "k" 0 5 (.ok ⟨"FAILURE", 4/5, 8⟩) (4/5) true).statesVisited :=
  ⟨⟨by norm_num,
    (((c9_confidence_gate [] "k" 0 5 ⟨"FAILURE", 1/2, 8⟩ true (by decide)
      (.inl rfl)).1 (by norm_num)).1)⟩,
   (((c9_confidence_gate [] "k" 0 5 ⟨"FAILURE", 4/5, 8⟩ true (by decide)
      (.inl rfl)).2 rfl).1)⟩

/-- The agent list requested by the multi-agent handler (index.py 236-242)
with the priority values declared by each agent class: Triage CRITICAL(1),
Telemetry HIGH(2), Risk HIGH(2), Remediation MEDIUM(3), Communications
LOW(4).  The behaviors are abstract. -/
def fiveAgents (b1 b2 b3 b4 b5 : List (String × OrchResult) → OrchResult) :
    List OrchAgent :=
  [⟨"triage", 1, b1⟩, ⟨"telemetry", 2, b2⟩, ⟨"risk", 2, b3⟩,
   ⟨"remediation", 3, b4⟩, ⟨"comms", 4, b5⟩]

/-- C8: the coordinator stable-sorts the requested five agents into exactly
Triage, Telemetry, Risk, Remediation, Communications order; each agent
receives all previously accumulated results; execution stops before the next
agent exactly when a result has status "failed" with `critical_failure`
true. -/
theorem c8_execution_order (b1 b2 b3 b4 b5 : List (String × OrchResult) → OrchResult) :
    ((fiveAgents b1 b2 b3 b4 b5).insertionSort
        (fun a b => a.priorityVal ≤ b.priorityVal) = fiveAgents b1 b2 b3 b4 b5) ∧
    ((orchestrate (fiveAgents b1 b2 b3 b4 b5)).agent_results =
      (let r1 := b1 []
       let r2 := b2 [("triage", r1)]
       let r3 := b3 [("triage", r1), ("telemetry", r2)]
       let r4 := b4 [("triage", r1), ("telemetry", r2), ("risk", r3)]
       let r5 := b5 [("triage", r1), ("telemetry", r2), ("risk", r3), ("remediation", r4)]
       if r1.status = "failed" ∧ r1.critical_failure = true then [("triage", r1)]
       else if r2.status = "failed" ∧ r2.critical_failure = true then
         [("triage", r1), ("telemetry", r2)]
       else if r3.status = "failed" ∧ r3.critical_failure = true then
         [("triage", r1), ("telemetry", r2), ("risk", r3)]
       else if r4.status = "failed" ∧ r4.critical_failure = true then
         [("triage", r1), ("telemetry", r2), ("risk", r3), ("remediation", r4)]
       else
         [("triage", r1), ("telemetry", r2), ("risk", r3), ("remediation", r4),
          ("comms", r5)])) ∧
    ((orchestrate (fiveAgents b1 b2 b3 b4 b5)).execution_order =
      (orchestrate (fiveAgents b1 b2 b3 b4 b5)).agent_results.map Prod.fst) := by
  have hsort : (fiveAgents b1 b2 b3 b4 b5).insertionSort
      (fun a b => a.priorityVal ≤ b.priorityVal) = fiveAgents b1 b2 b3 b4 b5 := by
    simp [fiveAgents, List.insertionSort, List.orderedInsert]
  refine ⟨hsort, ?_, rfl⟩
  simp only [orchestrate, hsort, fiveAgents]
  by_cases h1 : ((b1 []).status = "failed" ∧ (b1 []).critical_failure = true)
  · simp [coordinatorLoop, h1]
  · by_cases h2 : ((b2 [("triage", b1 [])]).status = "failed" ∧
        (b2 [("triage", b1 [])]).critical_failure = true)
    · simp [coordinatorLoop, h1, h2]
    · by_cases h3 : ((b3 [("triage", b1 []), ("telemetry", b2 [("triage", b1 [])])]).status
          = "failed" ∧
        (b3 [("triage", b1 []), ("telemetry", b2 [("triage", b1 [])])]).critical_failure
          = true)
      · simp [coordinatorLoop, h1, h2, h3]
      · by_cases h4 : ((b4 [("triage", b1 []), ("telemetry", b2 [("triage", b1 [])]),
            ("risk", b3 [("triage", b1 []), ("telemetry", b2 [("triage", b1 [])])])]).status
              = "failed" ∧
          (b4 [("triage", b1 []), ("telemetry", b2 [("triage", b1 [])]),
            ("risk", b3 [("triage", b1 []), ("telemetry", b2 [("triage", b1 [])])])]).critical_failure
              = true)
        · simp [coordinatorLoop, h1, h2, h3, h4]
        · simp [coordinatorLoop, h1, h2, h3, h4]

/-- Shape of the coordinator loop output: the stored keys are the agent types
of an executed prefix of the agent list, one result per executed agent. -/
theorem coordinatorLoop_shape :
    ∀ (ags : List OrchAgent) (acc : List (String × OrchResult)),
      ∃ k, k ≤ ags.length ∧
        (coordinatorLoop ags acc).map Prod.fst
          = acc.map Prod.fst ++ (ags.map OrchAgent.atype).take k ∧
        (coordinatorLoop ags acc).length = acc.length + k := by
  intro ags
  induction ags with
  | nil => intro acc; exact ⟨0, by simp [coordinatorLoop]⟩
  | cons ag rest ih =>
    intro acc
    by_cases h : ((ag.behavior acc).status = "failed" ∧
        (ag.behavior acc).critical_failure = true)
    · refine ⟨1, by simp, ?_, ?_⟩ <;> simp [coordinatorLoop, h]
    · obtain ⟨k, hk, hmap, hlen⟩ := ih (acc ++ [(ag.atype, ag.behavior acc)])
      refine ⟨k + 1, by simp; omega, ?_, ?_⟩
      · simp only [coordinatorLoop, if_neg h]
        rw [hmap]
        simp [List.take_succ_cons]
      · simp only [coordinatorLoop, if_neg h]
        rw [hlen]
        simp
        omega

/-- A filter keeps the whole list exactly when every element satisfies the
predicate. -/
theorem filter_len_eq_iff {α : Type} (p : α → Bool) :
    ∀ (l : List α), (l.filter p).length = l.length ↔ ∀ a ∈ l, p a = true := by
  intro l
  induction l with
  | nil => simp
  | cons a l ih =>
    cases h : p a with
    | true => simp [List.filter_cons, h, ih]
    | false =>
      have hle := List.length_filter_le p l
      simp [List.filter_cons, h]
      omega

/-- In an association list with distinct keys, a key determines its value. -/
theorem assoc_value_unique {β : Type} :
    ∀ (l : List (String × β)), (l.map Prod.fst).Nodup →
      ∀ (k : String) (a b : β), (k, a) ∈ l → (k, b) ∈ l → a = b := by
  intro l
  induction l with
  | nil => intro _ k a b ha; simp at ha
  | cons x l ih =>
    intro hnd k a b ha hb
    have hnd2 : (l.map Prod.fst).Nodup := (List.nodup_cons.mp hnd).2
    have hx : x.1 ∉ l.map Prod.fst := (List.nodup_cons.mp hnd).1
    rcases List.mem_cons.mp ha with ha | ha <;> rcases List.mem_cons.mp hb with hb | hb
    · rw [← ha] at hb; exact congrArg Prod.snd (hb.symm)
    · exfalso; apply hx
      have : k = x.1 := by rw [← ha]
      rw [← this]
      exact List.mem_map_of_mem _ hb
    · exfalso; apply hx
      have : k = x.1 := by rw [← hb]
      rw [← this]
      exact List.mem_map_of_mem _ ha
    · exact ih hnd2 k a b ha hb

/-- The loop over a key-distinct agent list stores a success for every agent
exactly when the success count reaches the number of agents. -/
theorem loop_success_iff (ags : List OrchAgent)
    (hnd : (ags.map OrchAgent.atype).Nodup) :
    ((coordinatorLoop ags []).filter (fun p => p.2.status = "success")).length
        = ags.length ↔
      ∀ ag ∈ ags, ∃ r, (ag.atype, r) ∈ coordinatorLoop ags [] ∧
        r.status = "success" := by
  obtain ⟨k, hk, hmap, hlen⟩ := coordinatorLoop_shape ags []
  simp only [List.map_nil, List.nil_append, List.length_nil, Nat.zero_add] at hmap hlen
  constructor
  · intro hcount
    have hfle : ((coordinatorLoop ags []).filter
        (fun p => p.2.status = "success")).length ≤ (coordinatorLoop ags []).length :=
      List.length_filter_le _ _
    have hkk : k = ags.length := by omega
    have hmapfull : (coordinatorLoop ags []).map Prod.fst = ags.map OrchAgent.atype := by
      rw [hmap, hkk]
      apply List.take_of_length_le
      simp
    have hall := (filter_len_eq_iff
      (fun p => decide (p.2.status = "success")) (coordinatorLoop ags [])).mp (by omega)
    intro ag hag
    have hkey : ag.atype ∈ (coordinatorLoop ags []).map Prod.fst := by
      rw [hmapfull]; exact List.mem_map_of_mem _ hag
    obtain ⟨p, hp, hpe⟩ := List.mem_map.mp hkey
    refine ⟨p.2, ?_, ?_⟩
    · rw [← hpe]; simpa using hp
    · simpa using hall p hp
  · intro hsucc
    have hsub : ags.map OrchAgent.atype ⊆ (coordinatorLoop ags []).map Prod.fst := by
      intro x hx
      obtain ⟨ag, hag, rfl⟩ := List.mem_map.mp hx
      obtain ⟨r, hr, _⟩ := hsucc ag hag
      exact List.mem_map.mpr ⟨(ag.atype, r), hr, rfl⟩
    have hsp := List.subperm_of_subset hnd hsub
    have hlen2 := hsp.length_le
    rw [List.length_map, List.length_map] at hlen2
    have hkk : k = ags.length := by omega
    have hmapfull : (coordinatorLoop ags []).map Prod.fst = ags.map OrchAgent.atype := by
      rw [hmap, hkk]
      apply List.take_of_length_le
      simp
    have hndR : ((coordinatorLoop ags []).map Prod.fst).Nodup := by
      rw [hmapfull]; exact hnd
    have hall : ∀ p ∈ coordinatorLoop ags [],
        (fun p => decide (p.2.status = "success")) p = true := by
      intro p hp
      have hkey : p.1 ∈ (coordinatorLoop ags []).map Prod.fst :=
        List.mem_map_of_mem _ hp
      rw [hmapfull] at hkey
      obtain ⟨ag, hag, hpa⟩ := List.mem_map.mp hkey
      obtain ⟨r, hr, hrs⟩ := hsucc ag hag
      have hpmem : (p.1, p.2) ∈ coordinatorLoop ags [] := by simpa using hp
      have hreq : p.2 = r := by
        refine assoc_value_unique (coordinatorLoop ags []) hndR p.1 p.2 r hpmem ?_
        rw [hpa] at hr
        exact hr
      simp [hreq, hrs]
    have := (filter_len_eq_iff
      (fun p => decide (p.2.status = "success")) (coordinatorLoop ags [])).mpr hall
    omega

/-- C4: the final workflow state persisted by the multi-agent handler is
COMPLETED exactly when every requested agent produced a stored SUCCESS
result — any FAILED result (critical or not), and any agent skipped by an
earlier critical failure, yields FAILED. -/
theorem c4_completed_iff (agents : List OrchAgent)
    (hnd : (agents.map OrchAgent.atype).Nodup) :
    multiAgentFinalState agents = "COMPLETED" ↔
      ∀ ag ∈ agents, ∃ r, (ag.atype, r) ∈ (orchestrate agents).agent_results ∧
        r.status = "success" := by
  have hperm : List.Perm
      (agents.insertionSort (fun a b => a.priorityVal ≤ b.priorityVal)) agents :=
    List.perm_insertionSort _ _
  have hndS : ((agents.insertionSort (fun a b => a.priorityVal ≤ b.priorityVal)).map
      OrchAgent.atype).Nodup := ((hperm.map OrchAgent.atype).nodup_iff).mpr hnd
  have hiff := loop_success_iff _ hndS
  have hlen : (agents.insertionSort (fun a b => a.priorityVal ≤ b.priorityVal)).length
      = agents.length := hperm.length_eq
  constructor
  · intro h
    have hcount : ((coordinatorLoop (agents.insertionSort
          (fun a b => a.priorityVal ≤ b.priorityVal)) []).filter
            (fun p => p.2.status = "success")).length = agents.length := by
      by_contra hne
      simp [multiAgentFinalState, orchestrate, hne] at h
    intro ag hag
    exact hiff.mp (by rw [hcount, hlen]) ag (hperm.mem_iff.mpr hag)
  · intro h
    have hS : ∀ ag ∈ agents.insertionSort (fun a b => a.priorityVal ≤ b.priorityVal),
        ∃ r, (ag.atype, r) ∈ coordinatorLoop (agents.insertionSort
          (fun a b => a.priorityVal ≤ b.priorityVal)) [] ∧ r.status = "success" :=
      fun ag hag => h ag (hperm.mem_iff.mp hag)
    have hcount := hiff.mpr hS
    simp [multiAgentFinalState, orchestrate, hcount, hlen]

/-- C4 witness: two agents that both succeed give COMPLETED. -/
theorem c4_witness :
    (([⟨"triage", 1, fun _ => ⟨"success", false⟩⟩,
       ⟨"telemetry", 2, fun _ => ⟨"success", false⟩⟩] : List OrchAgent).map
        OrchAgent.atype).Nodup ∧
    (multiAgentFinalState [⟨"triage", 1, fun _ => ⟨"success", false⟩⟩,
        ⟨"telemetry", 2, fun _ => ⟨"success", false⟩⟩] = "COMPLETED" ↔
      ∀ ag ∈ ([⟨"triage", 1, fun _ => ⟨"success", false⟩⟩,
          ⟨"telemetry", 2, fun _ => ⟨"success", false⟩⟩] : List OrchAgent),
        ∃ r, (ag.atype, r) ∈ (orchestrate [⟨"triage", 1, fun _ => ⟨"success", false⟩⟩,
          ⟨"telemetry", 2, fun _ => ⟨"success", false⟩⟩]).agent_results ∧
          r.status = "success") :=
  ⟨by simp, c4_completed_iff _ (by simp)⟩
